import Mathlib

/-!
Verification of the SmartClause payment subsystem.

Shallow embedding of the payment-gating code:
  - `payment_verification.py`: `PaymentStatus`, `verify_payment`,
    `reset_payment_state`, `handle_download_request` over the Streamlit
    session state;
  - `mpesa_handler.py`: phone-number sanitization, the `DataEncryption`
    wrappers around the symmetric cipher (the cipher itself is an external
    library and is passed in as a parameter together with its documented
    round-trip contract), base64 encoding/decoding, password generation,
    and `initiate_stk_push`;
  - `endpoint.py`: the `mpesa_callback` Flask handler.

Conventions: wall-clock instants are natural numbers of seconds; Python
`datetime` subtraction followed by the `> timedelta(minutes=30)` test maps
to truncated `Nat` subtraction compared with `30 * 60` (both agree: a
"future" record is not expired under either reading).  Python byte strings
are `List Nat` with every element `< 256`; Python text strings that only
flow through concatenation and base64 are `List Char`.  A raised Python
exception is the `none` of an `Option` result (or an explicit constructor
where the surrounding `try` distinguishes outcomes).
-/

namespace SmartClause

/-- Outcome of one `mpesa_handler.query_stk_push(...)` call as observed by
`verify_payment`: either a JSON response whose `'ResultCode'` key is read
with `.get` (hence `Option String`), or a raised exception, which the
`except` clause in the loop turns into one consumed attempt. -/
inductive QueryOutcome where
  | resp (resultCode : Option String)
  | err
deriving DecidableEq

/-- `PaymentStatus` dataclass from `payment_verification.py`.  The Python
`amount` field is a float that is only stored, never computed with, so its
numeric type is immaterial here. -/
structure PaymentStatus where
  document_id : String
  checkout_request_id : String
  amount : Nat
  timestamp : Nat
  verified : Bool := false
  attempts : Nat := 0
deriving DecidableEq

/-- The three payment-related Streamlit session-state variables set up by
`init_payment_state`. -/
structure SessionState where
  payment_status : Option PaymentStatus
  payment_verified : Bool
  current_document_id : Option String
deriving DecidableEq

/-- The `while attempts < max_attempts` loop of
`PaymentVerification.verify_payment`, lines 29-50.  `oracle i` is the
outcome of the `i`-th gateway status query, `queryIdx` the number of
queries issued so far and the remaining fuel is `max_attempts - attempts`.
Returns the boolean result together with the total number of queries
issued.  `'0'` returns `True`; `'1032'`/`'1037'` return `False`; any other
response, and any raised exception, consumes one attempt and loops. -/
def verifyLoop (oracle : Nat → QueryOutcome) (queryIdx : Nat) : Nat → Bool × Nat
  | 0 => (false, queryIdx)
  | fuel + 1 =>
    match oracle queryIdx with
    | .err => verifyLoop oracle (queryIdx + 1) fuel
    | .resp rc =>
      if rc = some "0" then (true, queryIdx + 1)
      else if rc = some "1032" ∨ rc = some "1037" then (false, queryIdx + 1)
      else verifyLoop oracle (queryIdx + 1) fuel

/-- `PaymentVerification.verify_payment`.  The guard on lines 26-27 reads
the session's `payment_status` and compares its `document_id` with the
`document_id` argument before any query is made.  The
`checkout_request_id` argument only parametrizes the queries, which the
oracle already indexes, so it is omitted.  Result: boolean outcome and
number of gateway status queries issued. -/
def verify_payment (oracle : Nat → QueryOutcome) (paymentStatus : Option PaymentStatus)
    (documentId : String) (maxAttempts : Nat) : Bool × Nat :=
  match paymentStatus with
  | none => (false, 0)
  | some ps =>
    if ps.document_id ≠ documentId then (false, 0)
    else verifyLoop oracle 0 maxAttempts

/-- `reset_payment_state`: clears the record, clears the verified flag and
installs a freshly generated document id (the generator is time-seeded;
its output is the `newId` argument). -/
def reset_payment_state (newId : String) : SessionState :=
  { payment_status := none
    payment_verified := false
    current_document_id := some newId }

/-- `update_payment_status`: binds a new record to the current document id
and clears the cached verified flag. -/
def update_payment_status (checkoutRequestId : String) (amount : Nat) (now : Nat)
    (s : SessionState) : SessionState :=
  { s with
    payment_status := some
      { document_id := s.current_document_id.getD ""
        checkout_request_id := checkoutRequestId
        amount := amount
        timestamp := now }
    payment_verified := false }

/-- `handle_download_request`, lines 81-116.  `now` is the wall clock read
at check time; `oracle` feeds any `verify_payment` polling the call
performs.  Returns the gate's boolean together with the session state
after the call (the only mutations are clearing an expired
`payment_status` and setting `payment_verified` on success).  Note the
order of the checks in the source: the cached-verified fast path on lines
90-92 fires *before* the 30-minute expiry check on lines 98-103. -/
def handle_download_request (oracle : Nat → QueryOutcome) (now : Nat)
    (s : SessionState) : Bool × SessionState :=
  match s.current_document_id with
  | none => (false, s)
  | some docId =>
    if docId = "" then (false, s)
    else if (s.payment_verified &&
        (match s.payment_status with
         | some ps => ps.document_id == docId
         | none => false)) = true then (true, s)
    else
      match s.payment_status with
      | none => (false, s)
      | some ps =>
        if now - ps.timestamp > 30 * 60 then (false, { s with payment_status := none })
        else if (verify_payment oracle s.payment_status docId 5).1 = true then
          (true, { s with payment_verified := true })
        else (false, s)

/-- A session holding a record that was verified 31 minutes ago for the
currently active document. -/
def staleVerifiedState : SessionState :=
  { payment_status := some
      { document_id := "doc_a"
        checkout_request_id := "ws_CO_1"
        amount := 100
        timestamp := 0
        verified := true }
    payment_verified := true
    current_document_id := some "doc_a" }

/-- The `except` branch consumes attempts one by one: an oracle that always
raises makes the loop run through its whole fuel and yield `false`. -/
theorem verifyLoop_all_err (oracle : Nat → QueryOutcome)
    (herr : ∀ i, oracle i = .err) :
    ∀ (fuel start : Nat), verifyLoop oracle start fuel = (false, start + fuel)
  | 0, start => by simp [verifyLoop]
  | fuel + 1, start => by
    have harith : start + 1 + fuel = start + (fuel + 1) := by omega
    simp only [verifyLoop]
    rw [herr start, verifyLoop_all_err oracle herr fuel (start + 1), harith]

/-- Claim C1, counterexample: a record verified 31 minutes ago for the
current document.  Its age exceeds the 30-minute window, yet
`handle_download_request` returns `true` and leaves the record in place
(the cached-verified fast path on lines 90-92 runs before the expiry check
on lines 98-103), contradicting the claim that the gate returns `false`
and clears the record. -/
theorem c1_counterexample :
    (31 * 60 : Nat) - staleVerifiedState.payment_status.elim 0 (·.timestamp) > 30 * 60 ∧
    handle_download_request (fun _ => QueryOutcome.err) (31 * 60) staleVerifiedState
      = (true, staleVerifiedState) := by
  constructor
  · decide
  · rfl

/-- Claim C1 (amended): the 30-minute expiry clearing applies only when the
cached-verified fast path does not fire.  If the session's
`payment_verified` flag is `false`, a record older than 30 minutes (even
one whose own `verified` field is `true`) makes the gate return `false`
and clear `payment_status`. -/
theorem c1_amended (oracle : Nat → QueryOutcome) (now : Nat) (s : SessionState)
    (ps : PaymentStatus) (docId : String)
    (hdoc : s.current_document_id = some docId) (hne : docId ≠ "")
    (hps : s.payment_status = some ps) (_hv : ps.verified = true)
    (hnf : s.payment_verified = false)
    (hage : now - ps.timestamp > 30 * 60) :
    handle_download_request oracle now s = (false, { s with payment_status := none }) := by
  unfold handle_download_request
  rw [hdoc]
  simp only [hnf, hps, Bool.false_and]
  rw [if_neg hne, if_neg (by simp), if_pos hage]

/-- Claim C1 amended, witness: concrete stale unverified-session record. -/
theorem c1_amended_witness :
    handle_download_request (fun _ => QueryOutcome.err) (31 * 60)
      { payment_status := some
          { document_id := "doc_a", checkout_request_id := "ws_CO_1",
            amount := 100, timestamp := 0, verified := true }
        payment_verified := false
        current_document_id := some "doc_a" }
      = (false,
         { payment_status := none
           payment_verified := false
           current_document_id := some "doc_a" }) :=
  c1_amended _ _ _ _ "doc_a" rfl (by decide) rfl rfl rfl (by decide)

/-- Claim C2: whenever the download gate returns `true`, the stored record's
`document_id` equals the currently requested document id (both the cached
fast path and the `verify_payment` path check it), and
`reset_payment_state` always clears the record and the verified flag, so a
verified flag for one artifact never authorizes another. -/
theorem c2_gate_requires_matching_document (oracle : Nat → QueryOutcome) (now : Nat)
    (s : SessionState) (newId : String)
    (h : (handle_download_request oracle now s).1 = true) :
    (∃ ps, s.payment_status = some ps ∧ s.current_document_id = some ps.document_id) ∧
    (reset_payment_state newId).payment_status = none ∧
    (reset_payment_state newId).payment_verified = false := by
  refine ⟨?_, rfl, rfl⟩
  unfold handle_download_request at h
  split at h
  · simp at h
  next docId hdoc =>
    split at h
    · simp at h
    next he =>
      split at h
      next hfast =>
        rcases hps : s.payment_status with _ | ps
        · rw [hps] at hfast; simp at hfast
        · rw [hps] at hfast
          simp only [Bool.and_eq_true, beq_iff_eq] at hfast
          exact ⟨ps, rfl, by rw [hdoc, hfast.2]⟩
      next hfast =>
        split at h
        · simp at h
        next ps hps =>
          split at h
          · simp at h
          next hage =>
            split at h
            next hver =>
              refine ⟨ps, hps, ?_⟩
              rw [hps] at hver
              simp only [verify_payment] at hver
              by_cases hd : ps.document_id = docId
              · rw [hdoc, hd]
              · rw [if_pos hd] at hver; simp at hver
            next hver => simp at h

/-- Claim C2, witness: a session whose cached flag authorizes the matching
document makes the gate return `true`, and the conclusions hold there. -/
theorem c2_witness :
    (handle_download_request (fun _ => QueryOutcome.err) 0 staleVerifiedState).1 = true ∧
    ((∃ ps, staleVerifiedState.payment_status = some ps ∧
        staleVerifiedState.current_document_id = some ps.document_id) ∧
     (reset_payment_state "doc_b").payment_status = none ∧
     (reset_payment_state "doc_b").payment_verified = false) :=
  ⟨by decide,
   c2_gate_requires_matching_document (fun _ => QueryOutcome.err) 0 staleVerifiedState
     "doc_b" (by decide)⟩

/-- Claim C3: if the first status query yields the gateway-confirmed
terminal `ResultCode` `'1032'` or `'1037'`, `verify_payment` returns
`false` after exactly one query, whatever the remaining attempt budget. -/
theorem c3_terminal_failure_is_immediate (oracle : Nat → QueryOutcome)
    (ps : PaymentStatus) (docId : String) (maxAttempts : Nat)
    (hdoc : ps.document_id = docId) (hpos : 0 < maxAttempts)
    (h0 : oracle 0 = .resp (some "1032") ∨ oracle 0 = .resp (some "1037")) :
    verify_payment oracle (some ps) docId maxAttempts = (false, 1) := by
  obtain ⟨fuel, rfl⟩ : ∃ f, maxAttempts = f + 1 := ⟨maxAttempts - 1, by omega⟩
  simp only [verify_payment]
  rw [if_neg (by simp [hdoc])]
  simp only [verifyLoop]
  rcases h0 with h0 | h0 <;> rw [h0] <;> simp

/-- Claim C3, witness: a cancelled (`'1032'`) first query with the default
budget of 5 resolves to `false` after a single query. -/
theorem c3_witness :
    verify_payment (fun _ => QueryOutcome.resp (some "1032"))
      (some { document_id := "d", checkout_request_id := "c", amount := 1, timestamp := 0 })
      "d" 5 = (false, 1) :=
  c3_terminal_failure_is_immediate _ _ _ 5 rfl (by decide) (Or.inl rfl)

/-- Claim C4: when every status query raises, `verify_payment` consumes
exactly its attempt budget, returns `false`, and (being a total function of
the oracle in this model, mirroring the `except` clause that swallows every
exception) never propagates an exception to its caller. -/
theorem c4_transient_errors_exhaust_budget (oracle : Nat → QueryOutcome)
    (ps : PaymentStatus) (docId : String) (maxAttempts : Nat)
    (hdoc : ps.document_id = docId)
    (herr : ∀ i, oracle i = .err) :
    verify_payment oracle (some ps) docId maxAttempts = (false, maxAttempts) := by
  simp only [verify_payment]
  rw [if_neg (by simp [hdoc])]
  simpa using verifyLoop_all_err oracle herr maxAttempts 0

/-- Claim C4, witness: five consecutive raised errors with the default
budget of 5 yield `false` after exactly 5 attempts. -/
theorem c4_witness :
    verify_payment (fun _ => QueryOutcome.err)
      (some { document_id := "d", checkout_request_id := "c", amount := 1, timestamp := 0 })
      "d" 5 = (false, 5) :=
  c4_transient_errors_exhaust_budget _ _ _ 5 rfl (fun _ => rfl)

/-- `MpesaHandler._sanitize_phone_number`, lines 294-326 of
`mpesa_handler.py`, on the character list of the raw input.  Digits are
extracted first; the branch cascade then mirrors the source:  a leading
`'0'` is replaced by the country code, a bare 9-digit `'7'`-led local
number gets the country code, a 9-digit number not starting with `254` is
assumed to be missing the country code; finally the result is accepted iff
it starts with `254` and is exactly 12 digits long, and the `ValueError`
raised otherwise is `none`.  `sanitizeDigitsFixup` is the branch cascade on
lines 310-320, applied to the extracted digits. -/
def sanitizeDigitsFixup (d : List Char) : List Char :=
  if d.head? = some '0' then
    ['2', '5', '4'] ++ d.tail
  else if d.head? = some '7' ∧ d.length = 9 then
    ['2', '5', '4'] ++ d
  else if ¬ (['2', '5', '4'].isPrefixOf d = true) then
    if d.length = 9 then ['2', '5', '4'] ++ d else d
  else d

/-- The final validation on lines 322-326: accept iff the candidate starts
with `254` and has exactly 12 digits, else `ValueError` (`none`). -/
def validateSanitized (d2 : List Char) : Option (List Char) :=
  if ['2', '5', '4'].isPrefixOf d2 = true ∧ d2.length = 12 then some d2 else none

def sanitize_phone_number (phone : List Char) : Option (List Char) :=
  validateSanitized (sanitizeDigitsFixup (phone.filter Char.isDigit))

/-- The message of the `ValueError` raised by `_sanitize_phone_number`. -/
def invalidPhoneMsg : List Char :=
  "Invalid phone number format. Expected 254XXXXXXXXX".toList

/-- Claim C5: each of the five accepted raw formats normalizes to the same
value `254712345678`. -/
theorem c5_phone_formats_normalize_identically :
    sanitize_phone_number "0712345678".toList = some "254712345678".toList ∧
    sanitize_phone_number "254712345678".toList = some "254712345678".toList ∧
    sanitize_phone_number "+254712345678".toList = some "254712345678".toList ∧
    sanitize_phone_number "254-712-345-678".toList = some "254712345678".toList ∧
    sanitize_phone_number "254 712 345 678".toList = some "254712345678".toList := by
  refine ⟨?_, ?_, ?_, ?_, ?_⟩ <;> decide

/-- Claim C6: an input with fewer than 9 digit characters — which subsumes
inputs without any digits and the empty input — is rejected: every branch
of the cascade then produces a candidate shorter than 12 digits, so the
final validation raises (`none`). -/
theorem c6_short_inputs_rejected (phone : List Char)
    (h : (phone.filter Char.isDigit).length < 9 ∨
         (∀ c ∈ phone, ¬ c.isDigit = true) ∨ phone = []) :
    sanitize_phone_number phone = none := by
  have hlen : (phone.filter Char.isDigit).length < 9 := by
    rcases h with h | h | h
    · exact h
    · have : phone.filter Char.isDigit = [] := List.filter_eq_nil_iff.mpr h
      rw [this]; simp
    · subst h; simp
  have hfix : (sanitizeDigitsFixup (phone.filter Char.isDigit)).length < 12 := by
    unfold sanitizeDigitsFixup
    split_ifs with h1 h2 h3 h4 <;>
    first
    | (simp only [List.length_append, List.length_tail, List.length_cons,
        List.length_nil]; omega)
    | omega
  simp only [sanitize_phone_number, validateSanitized]
  rw [if_neg]
  rintro ⟨-, h12⟩
  omega

/-- Claim C6, witness: `"123"` has only 3 significant digits and is
rejected. -/
theorem c6_witness :
    (("123".toList.filter Char.isDigit).length < 9 ∨
      (∀ c ∈ "123".toList, ¬ c.isDigit = true) ∨ "123".toList = []) ∧
    sanitize_phone_number "123".toList = none :=
  ⟨Or.inl (by decide), c6_short_inputs_rejected _ (Or.inl (by decide))⟩

/-- Value of the base64 alphabet at index `n < 64`, as a byte.  `urlsafe`
selects between the `-`/`_` alphabet (`base64.urlsafe_b64encode`, used by
`DataEncryption`) and the `+`/`/` one (`base64.b64encode`, used by
`generate_password`). -/
def b64char (urlsafe : Bool) (n : Nat) : Nat :=
  if n < 26 then 65 + n
  else if n < 52 then 97 + (n - 26)
  else if n < 62 then 48 + (n - 52)
  else if n = 62 then (if urlsafe then 45 else 43)
  else (if urlsafe then 95 else 47)

/-- Partial inverse of `b64char`: index of a byte in the alphabet. -/
def b64charIdx (urlsafe : Bool) (c : Nat) : Option Nat :=
  if 65 ≤ c ∧ c ≤ 90 then some (c - 65)
  else if 97 ≤ c ∧ c ≤ 122 then some (c - 97 + 26)
  else if 48 ≤ c ∧ c ≤ 57 then some (c - 48 + 52)
  else if c = (if urlsafe then 45 else 43) then some 62
  else if c = (if urlsafe then 95 else 47) then some 63
  else none

/-- Base64 encoding of a byte string, producing the ASCII bytes of the
encoded text (`61` is `'='` padding). -/
def b64encode (u : Bool) : List Nat → List Nat
  | [] => []
  | [a] => [b64char u (a / 4), b64char u (a % 4 * 16), 61, 61]
  | [a, b] => [b64char u (a / 4), b64char u (a % 4 * 16 + b / 16),
               b64char u (b % 16 * 4), 61]
  | a :: b :: c :: rest =>
      b64char u (a / 4) :: b64char u (a % 4 * 16 + b / 16) ::
      b64char u (b % 16 * 4 + c / 64) :: b64char u (c % 64) :: b64encode u rest

/-- Base64 decoding: consumes groups of four characters, allowing `=`
padding only in a final group; `none` models the `binascii.Error` raised
on malformed input. -/
def b64decode (u : Bool) : List Nat → Option (List Nat)
  | [] => some []
  | c1 :: c2 :: c3 :: c4 :: rest =>
    match b64charIdx u c1, b64charIdx u c2 with
    | some n1, some n2 =>
      if c3 = 61 ∧ c4 = 61 ∧ rest = [] then
        some [n1 * 4 + n2 / 16]
      else if c4 = 61 ∧ rest = [] then
        match b64charIdx u c3 with
        | some n3 => some [n1 * 4 + n2 / 16, n2 % 16 * 16 + n3 / 4]
        | none => none
      else
        match b64charIdx u c3, b64charIdx u c4 with
        | some n3, some n4 =>
          match b64decode u rest with
          | some tail =>
            some ((n1 * 4 + n2 / 16) :: (n2 % 16 * 16 + n3 / 4) ::
                  (n3 % 4 * 64 + n4) :: tail)
          | none => none
        | _, _ => none
    | _, _ => none
  | _ => none

theorem b64charIdx_b64char : ∀ (u : Bool), ∀ n < 64, b64charIdx u (b64char u n) = some n := by
  decide

theorem b64char_ne_61 : ∀ (u : Bool), ∀ n < 64, b64char u n ≠ 61 := by
  decide

/-- Base64 round trip on byte strings. -/
theorem b64decode_b64encode (u : Bool) :
    ∀ (s : List Nat), (∀ x ∈ s, x < 256) → b64decode u (b64encode u s) = some s
  | [], _ => rfl
  | [a], h => by
    have ha : a < 256 := h a (by simp)
    have e1 : a / 4 * 4 + a % 4 * 16 / 16 = a := by omega
    simp only [b64encode, b64decode]
    rw [b64charIdx_b64char u (a / 4) (by omega),
        b64charIdx_b64char u (a % 4 * 16) (by omega)]
    dsimp only
    rw [if_pos (by exact ⟨trivial, trivial, trivial⟩)]
    rw [e1]
  | [a, b], h => by
    have ha : a < 256 := h a (by simp)
    have hb : b < 256 := h b (by simp)
    have e1 : a / 4 * 4 + (a % 4 * 16 + b / 16) / 16 = a := by omega
    have e2 : (a % 4 * 16 + b / 16) % 16 * 16 + b % 16 * 4 / 4 = b := by omega
    simp only [b64encode, b64decode]
    rw [b64charIdx_b64char u (a / 4) (by omega),
        b64charIdx_b64char u (a % 4 * 16 + b / 16) (by omega)]
    dsimp only
    rw [if_neg (by rintro ⟨h61, -⟩; exact b64char_ne_61 u (b % 16 * 4) (by omega) h61)]
    rw [if_pos (by exact ⟨trivial, trivial⟩)]
    rw [b64charIdx_b64char u (b % 16 * 4) (by omega)]
    dsimp only
    rw [e1, e2]
  | a :: b :: c :: rest, h => by
    have ha : a < 256 := h a (by simp)
    have hb : b < 256 := h b (by simp)
    have hc : c < 256 := h c (by simp)
    have hrest : ∀ x ∈ rest, x < 256 := fun x hx => h x (by simp [hx])
    have e1 : a / 4 * 4 + (a % 4 * 16 + b / 16) / 16 = a := by omega
    have e2 : (a % 4 * 16 + b / 16) % 16 * 16 + (b % 16 * 4 + c / 64) / 4 = b := by omega
    have e3 : (b % 16 * 4 + c / 64) % 4 * 64 + c % 64 = c := by omega
    simp only [b64encode, b64decode]
    rw [b64charIdx_b64char u (a / 4) (by omega),
        b64charIdx_b64char u (a % 4 * 16 + b / 16) (by omega)]
    dsimp only
    rw [if_neg (by
      rintro ⟨-, h61, -⟩
      exact b64char_ne_61 u (c % 64) (by omega) h61)]
    rw [if_neg (by
      rintro ⟨h61, -⟩
      exact b64char_ne_61 u (c % 64) (by omega) h61)]
    rw [b64charIdx_b64char u (b % 16 * 4 + c / 64) (by omega),
        b64charIdx_b64char u (c % 64) (by omega)]
    dsimp only
    rw [b64decode_b64encode u rest hrest]
    dsimp only
    rw [e1, e2, e3]

/-- The encoding of a non-empty byte string is non-empty (its first group
already yields four characters). -/
theorem b64encode_ne_nil (u : Bool) (s : List Nat) (hs : s ≠ []) :
    b64encode u s ≠ [] := by
  match s with
  | [] => exact absurd rfl hs
  | [a] => simp [b64encode]
  | [a, b] => simp [b64encode]
  | a :: b :: c :: rest => simp [b64encode]

namespace DataEncryption

/-- `DataEncryption.encrypt`, lines 56-74 of `mpesa_handler.py`.  `data` is
the argument (`none` is Python `None`, `some []` the empty string, and
otherwise `some` of the UTF-8 bytes); `cEnc` is the external
`Fernet.encrypt` of the instance's cipher suite.  A falsy input is
returned unchanged; otherwise the cipher output is urlsafe-base64 encoded.
The result is the byte string of the returned text. -/
def encrypt (cEnc : List Nat → List Nat) (data : Option (List Nat)) :
    Option (List Nat) :=
  match data with
  | none => none
  | some [] => some []
  | some d => some (b64encode true (cEnc d))

/-- `DataEncryption.decrypt`, lines 76-95.  `cDec` is the external
`Fernet.decrypt`, whose `InvalidToken` failure is its `none`.  The outer
`Option` is the call's own outcome: `none` when the `except` clause
re-raises (malformed base64 or cipher failure), `some r` when the call
returns `r`.  A falsy input is returned unchanged. -/
def decrypt (cDec : List Nat → Option (List Nat)) (data : Option (List Nat)) :
    Option (Option (List Nat)) :=
  match data with
  | none => some none
  | some [] => some (some [])
  | some d =>
    match b64decode true d with
    | none => none
    | some dd =>
      match cDec dd with
      | none => none
      | some p => some (some p)

end DataEncryption

/-- Claim C7: under any cipher satisfying the Fernet contract — decryption
inverts encryption on byte strings, tokens are non-empty byte strings —
`decrypt` recovers every non-empty plaintext from `encrypt`'s output, and
`encrypt` propagates the empty string and `None` unchanged without
failing. -/
theorem c7_encrypt_decrypt_round_trip
    (cEnc : List Nat → List Nat) (cDec : List Nat → Option (List Nat))
    (hcipher : ∀ b, (∀ x ∈ b, x < 256) → cDec (cEnc b) = some b)
    (hbytes : ∀ b, (∀ x ∈ b, x < 256) → ∀ x ∈ cEnc b, x < 256)
    (hne : ∀ b, cEnc b ≠ [])
    (s : List Nat) (hs : s ≠ []) (hsb : ∀ x ∈ s, x < 256) :
    DataEncryption.decrypt cDec (DataEncryption.encrypt cEnc (some s)) = some (some s) ∧
    DataEncryption.encrypt cEnc (some []) = some [] ∧
    DataEncryption.encrypt cEnc none = none := by
  refine ⟨?_, rfl, rfl⟩
  have henc : DataEncryption.encrypt cEnc (some s) = some (b64encode true (cEnc s)) := by
    unfold DataEncryption.encrypt
    match s, hs with
    | a :: t, _ => rfl
  rw [henc]
  have htok : b64encode true (cEnc s) ≠ [] := b64encode_ne_nil true _ (hne s)
  unfold DataEncryption.decrypt
  rcases he : b64encode true (cEnc s) with _ | ⟨e1, et⟩
  · exact absurd he htok
  · dsimp only
    rw [← he, b64decode_b64encode true (cEnc s) (hbytes s hsb)]
    dsimp only
    rw [hcipher s hsb]

/-- A toy cipher satisfying the Fernet contract: prepend a marker byte. -/
def demoEnc : List Nat → List Nat := fun b => 99 :: b

/-- Inverse of `demoEnc`: strip the marker byte. -/
def demoDec : List Nat → Option (List Nat) := fun b =>
  match b with
  | 99 :: t => some t
  | _ => none

/-- Claim C7, witness: round trip at the concrete plaintext `[104, 105]`
under the toy cipher. -/
theorem c7_witness :
    (([104, 105] : List Nat) ≠ [] ∧ ∀ x ∈ ([104, 105] : List Nat), x < 256) ∧
    DataEncryption.decrypt demoDec (DataEncryption.encrypt demoEnc (some [104, 105]))
      = some (some [104, 105]) ∧
    DataEncryption.encrypt demoEnc (some []) = some [] ∧
    DataEncryption.encrypt demoEnc none = none :=
  ⟨⟨by decide, by decide⟩,
   c7_encrypt_decrypt_round_trip demoEnc demoDec
     (fun _ _ => rfl)
     (fun b hb x hx => by
       rcases List.mem_cons.mp hx with h99 | hmem
       · omega
       · exact hb x hmem)
     (fun b => by simp [demoEnc])
     [104, 105] (by decide) (by decide)⟩

/-- UTF-8 bytes of an ASCII character list (`str.encode()`). -/
def charsToBytes (s : List Char) : List Nat := s.map Char.toNat

/-- Text of an ASCII byte string (`bytes.decode("utf-8")`). -/
def bytesToChars (b : List Nat) : List Char := b.map Char.ofNat

/-- `MpesaHandler.generate_password`, lines 264-268: standard-alphabet
base64 of `shortcode + passkey + timestamp`, where the timestamp is the
handler's `self.now` formatted — the method is called exactly once, from
`__init__`, so `nowStr` is the construction-time stamp. -/
def generate_password (shortcode passkey nowStr : List Char) : List Char :=
  bytesToChars (b64encode false (charsToBytes (shortcode ++ passkey ++ nowStr)))

/-- The configuration and state of `MpesaHandler` that the push-payment
path reads: credentials from the environment, plus `self.timestamp` and
`self.password`, both fixed at construction. -/
structure MpesaClient where
  business_shortcode : List Char
  till_number : List Char
  passkey : List Char
  callback_url : List Char
  timestamp : List Char
  password : List Char
  access_token : List Char
deriving DecidableEq

/-- `MpesaHandler.__init__`, lines 143-211 restricted to the fields above:
`self.now = datetime.now()` is taken once at construction
(`constructionTime` formatted as `%Y%m%d%H%M%S`), and
`self.password = self.generate_password()` stamps `self.timestamp` and the
password from it, once, for the life of the client. -/
def mkMpesaClient (shortcode till pk cb constructionTime token : List Char) :
    MpesaClient :=
  { business_shortcode := shortcode
    till_number := till
    passkey := pk
    callback_url := cb
    timestamp := constructionTime
    password := generate_password shortcode pk constructionTime
    access_token := token }

/-- The JSON body POSTed by `initiate_stk_push`, lines 373-385. -/
structure StkPayload where
  BusinessShortCode : List Char
  Password : List Char
  Timestamp : List Char
  TransactionType : List Char
  Amount : Nat
  PartyA : List Char
  PartyB : List Char
  PhoneNumber : List Char
  CallBackURL : List Char
  TransactionDesc : List Char
  AccountReference : Option (List Char)
deriving DecidableEq

/-- Outcome of one `initiate_stk_push` call: the request was POSTed with
the given payload; or the `except ValueError` branch on lines 417-419
returned the rejection-shaped dict
`{"ResponseCode": code, "errorMessage": msg}`; or some other exception was
re-raised (lines 420-422). -/
inductive StkOutcome where
  | sent (payload : StkPayload)
  | validationRejection (ResponseCode : List Char) (errorMessage : List Char)
  | raised
deriving DecidableEq

/-- `SecurePaymentData.get_phone_number` / `get_account_reference`:
a falsy stored ciphertext returns Python `None`; otherwise the stored
ciphertext is decrypted.  Outer `none` = the decrypt call raised. -/
def securePaymentGet (cDec : List Nat → Option (List Nat))
    (stored : Option (List Nat)) : Option (Option (List Nat)) :=
  match stored with
  | none => some none
  | some [] => some none
  | some e => DataEncryption.decrypt cDec (some e)

/-- `MpesaHandler.initiate_stk_push`, lines 328-422.  The phone number is
sanitized first (a `ValueError` is caught on lines 417-419 and returned as
a rejection dict, with no request sent); the sanitized phone and the
(possibly generated, 12-char-truncated) account reference are encrypted
into the `SecurePaymentData` container and decrypted again just before the
payload is built; the payload carries the client's construction-time
`self.password` and `self.timestamp`.  `generatedRef` is the output of the
time-and-randomness-seeded `generate_account_reference`;
`_requestTime` is `datetime.now()` read during the call (stored only into
`payment_data.timestamp`, it influences nothing in the payload).  The
second component counts the `requests.post` calls made.  A decrypt failure
is re-raised; a Python-`None` decrypted phone raises `TypeError` at the
log-redaction slice `decrypted_phone[-4:]` on line 389, before the POST. -/
def initiate_stk_push (c : MpesaClient)
    (cEnc : List Nat → List Nat) (cDec : List Nat → Option (List Nat))
    (phone : List Char) (amount : Nat) (transactionDesc : List Char)
    (accountRef : Option (List Char)) (generatedRef : List Char)
    (_requestTime : List Char) : StkOutcome × Nat :=
  match sanitize_phone_number phone with
  | none => (.validationRejection "1".toList invalidPhoneMsg, 0)
  | some sp =>
    let accRef := (accountRef.getD generatedRef).take 12
    let encPhone := DataEncryption.encrypt cEnc (some (charsToBytes sp))
    let encRef := DataEncryption.encrypt cEnc (some (charsToBytes accRef))
    match securePaymentGet cDec encPhone with
    | none => (.raised, 0)
    | some decPhone =>
      match securePaymentGet cDec encRef with
      | none => (.raised, 0)
      | some decRef =>
        match decPhone with
        | none => (.raised, 0)
        | some pb =>
          (.sent
            { BusinessShortCode := c.business_shortcode
              Password := c.password
              Timestamp := c.timestamp
              TransactionType := "CustomerBuyGoodsOnline".toList
              Amount := amount
              PartyA := bytesToChars pb
              PartyB := c.till_number
              PhoneNumber := bytesToChars pb
              CallBackURL := c.callback_url
              TransactionDesc := transactionDesc
              AccountReference := decRef.map bytesToChars }, 1)

/-- The `Password` field of a sent push, if one was sent. -/
def sentPassword : StkOutcome → Option (List Char)
  | .sent p => some p.Password
  | _ => none

/-- A concrete client constructed at timestamp `20240101120000`. -/
def demoClient : MpesaClient :=
  mkMpesaClient "174379".toList "529912".toList "passkey24".toList
    "https://cb.example".toList "20240101120000".toList "tokentokentoken".toList

/-- A concrete push issued on that client one day later. -/
def demoPush : StkOutcome × Nat :=
  initiate_stk_push demoClient demoEnc demoDec "0712345678".toList 10
    "Document Generation Payment".toList none "1234ABCDEFGH".toList
    "20240102120000".toList

/-- The payload `demoPush` sends. -/
def demoSentPayload : StkPayload :=
  { BusinessShortCode := "174379".toList
    Password := generate_password "174379".toList "passkey24".toList
      "20240101120000".toList
    Timestamp := "20240101120000".toList
    TransactionType := "CustomerBuyGoodsOnline".toList
    Amount := 10
    PartyA := "254712345678".toList
    PartyB := "529912".toList
    PhoneNumber := "254712345678".toList
    CallBackURL := "https://cb.example".toList
    TransactionDesc := "Document Generation Payment".toList
    AccountReference := some "1234ABCDEFGH".toList }

/-- Claim C8, counterexample: a push issued on 2024-01-02 on a client
constructed on 2024-01-01 carries the password stamped from the
*construction-time* timestamp, not one freshly generated for the request:
it differs from `base64(shortcode + passkey + request timestamp)`, which
the claim says it equals. -/
theorem c8_counterexample :
    sentPassword demoPush.1
      = some (generate_password "174379".toList "passkey24".toList
          "20240101120000".toList) ∧
    sentPassword demoPush.1
      ≠ some (generate_password "174379".toList "passkey24".toList
          "20240102120000".toList) ∧
    ("20240102120000" : String) ≠ "20240101120000" := by
  refine ⟨by decide, by decide, by decide⟩

/-- Claim C8 (amended): every sent push-payment request carries the
password `base64(shortcode + passkey + timestamp)` where the timestamp is
the one generated once at client construction (`self.now` in `__init__`)
and reused for every request, together with that same timestamp in the
`Timestamp` field; the request time plays no part. -/
theorem c8_amended (shortcode till pk cb t0 tok : List Char)
    (cEnc : List Nat → List Nat) (cDec : List Nat → Option (List Nat))
    (phone : List Char) (amount : Nat) (desc : List Char)
    (accountRef : Option (List Char)) (genRef requestTime : List Char)
    (payload : StkPayload)
    (h : (initiate_stk_push (mkMpesaClient shortcode till pk cb t0 tok)
        cEnc cDec phone amount desc accountRef genRef requestTime).1
      = .sent payload) :
    payload.Password
      = bytesToChars (b64encode false (charsToBytes (shortcode ++ pk ++ t0))) ∧
    payload.Timestamp = t0 := by
  unfold initiate_stk_push at h
  split at h
  · simp at h
  next sp hsp =>
    simp only [mkMpesaClient] at h
    split at h
    · simp at h
    next decPhone hdp =>
      split at h
      · simp at h
      next decRef hdr =>
        split at h
        · simp at h
        next pb hpb =>
          simp only [StkOutcome.sent.injEq] at h
          subst h
          exact ⟨rfl, rfl⟩

/-- Claim C8 amended, witness: the concrete push of `demoPush`. -/
theorem c8_amended_witness :
    (initiate_stk_push (mkMpesaClient "174379".toList "529912".toList
        "passkey24".toList "https://cb.example".toList "20240101120000".toList
        "tokentokentoken".toList) demoEnc demoDec "0712345678".toList 10
        "Document Generation Payment".toList none "1234ABCDEFGH".toList
        "20240102120000".toList).1 = .sent demoSentPayload ∧
    demoSentPayload.Password
      = bytesToChars (b64encode false (charsToBytes
          ("174379".toList ++ "passkey24".toList ++ "20240101120000".toList))) ∧
    demoSentPayload.Timestamp = "20240101120000".toList :=
  ⟨by decide,
   c8_amended "174379".toList "529912".toList "passkey24".toList
     "https://cb.example".toList "20240101120000".toList "tokentokentoken".toList
     demoEnc demoDec "0712345678".toList 10
     "Document Generation Payment".toList none "1234ABCDEFGH".toList
     "20240102120000".toList demoSentPayload (by decide)⟩

/-- Claim C10: whenever phone sanitization fails, `initiate_stk_push`
catches the `ValueError` and returns the gateway-rejection-shaped dict
`{"ResponseCode": "1", "errorMessage": <message>}` with zero gateway
requests issued. -/
theorem c10_sanitize_failure_returns_rejection (c : MpesaClient)
    (cEnc : List Nat → List Nat) (cDec : List Nat → Option (List Nat))
    (phone : List Char) (amount : Nat) (desc : List Char)
    (accountRef : Option (List Char)) (genRef requestTime : List Char)
    (h : sanitize_phone_number phone = none) :
    initiate_stk_push c cEnc cDec phone amount desc accountRef genRef requestTime
      = (.validationRejection "1".toList invalidPhoneMsg, 0) := by
  unfold initiate_stk_push
  rw [h]

/-- Claim C10, witness: the two-digit input `"12"` fails sanitization and
the call returns the rejection dict without a gateway request. -/
theorem c10_witness :
    sanitize_phone_number "12".toList = none ∧
    initiate_stk_push demoClient demoEnc demoDec "12".toList 10
        "Document Generation Payment".toList none "1234ABCDEFGH".toList
        "20240102120000".toList
      = (.validationRejection "1".toList invalidPhoneMsg, 0) :=
  ⟨by decide,
   c10_sanitize_failure_returns_rejection demoClient demoEnc demoDec
     "12".toList 10 "Document Generation Payment".toList none
     "1234ABCDEFGH".toList "20240102120000".toList (by decide)⟩

/-- The names bound at module level in `endpoint.py`: its single import
line (`from flask import Flask, request, jsonify`) and the module's own
definitions.  `json` is not among them. -/
def endpointModuleNames : List String :=
  ["Flask", "request", "jsonify", "app", "mpesa_callback"]

/-- What the `mpesa_callback` handler produces: a response with an HTTP
status and the `status` field of the JSON body, or an uncaught exception
(which Flask turns into a 500). -/
inductive FlaskResponse where
  | ok (status : Nat) (statusField : String)
  | exn (name : String)
deriving DecidableEq

/-- `mpesa_callback`, lines 5-16 of `endpoint.py`.  `callback_data` is the
parsed `request.json` (`none` for Python `None`, otherwise the parsed
value's truthiness).  Line 10 evaluates `json.dumps(callback_data)`,
which first looks up the module-level name `json`; that lookup fails —
`json` is never imported — raising `NameError` before the branch on lines
13-16 can run. -/
def mpesa_callback (callback_data : Option Bool) : FlaskResponse :=
  if "json" ∈ endpointModuleNames then
    match callback_data with
    | some true => .ok 200 "success"
    | _ => .ok 400 "error"
  else .exn "NameError"

/-- Claim C9, failing behavior: for a present, truthy JSON body (and
likewise for every other body) the handler raises `NameError` instead of
answering `200 {"status": "success"}` / `400 {"status": "error"}` — the
`json` module used on line 10 is never imported, a slip contradicting the
evident intent of lines 13-16. -/
theorem c9_callback_raises_name_error :
    mpesa_callback (some true) = .exn "NameError" ∧
    mpesa_callback (some false) = .exn "NameError" ∧
    mpesa_callback none = .exn "NameError" := by
  refine ⟨by decide, by decide, by decide⟩

end SmartClause
